import Mathlib

/-!
# F200 camera: calibration derivation and extension-unit parameter channel

A shallow embedding of `src/F200/F200.cpp` (namespace `rsimpl::f200`).

* `float` values are taken in exact arithmetic, as rationals: `0.5f` is `1/2`,
  `4.0f/3` is `4/3`, `1.0f/6` is `1/6`, `0.001f` is `1/1000`.
* `int` is the 32-bit two's-complement integer: a product is reduced by
  `int_wrap`, values are carried as `Int`.
* fixed-size C arrays `T a[n]` are functions `Fin n → T`; an assignment to one
  element is `store`.
* `std::vector` is `List`.
* what the headers declare (`rs.h`, `types.h`, `F200.h`, `HardwareIO.h`,
  libuvc) is not part of the translated file; each such declaration is marked
  where it is modelled.
-/

namespace rsimpl.f200

/-! ## Scalars and arrays -/

/-- Single-precision values of the source, in exact arithmetic. -/
abbrev float := ℚ

/-- Reduction of a mathematical integer to the 32-bit two's-complement `int`. -/
def int_wrap (x : Int) : Int := (x + 2147483648) % 4294967296 - 2147483648

/-- The product `a * b` as computed on `int` operands. -/
def int_mul (a b : Int) : Int := int_wrap (a * b)

/-- The values an `int` can hold. -/
def int_range (x : Int) : Prop := -2147483648 ≤ x ∧ x ≤ 2147483647

instance (x : Int) : Decidable (int_range x) := by
  unfold int_range; infer_instance

/-- Assignment `a[i] = v` to one element of a fixed-size array. -/
def store {n : Nat} {α : Type} (a : Fin n → α) (i : Fin n) (v : α) : Fin n → α :=
  fun j => if j = i then v else a j

/-- The call `v.resize(n)` on a `std::vector`: keeps the first `n` elements and
pads with value-initialised elements `z`. -/
def resize {α : Type} (v : List α) (n : Nat) (z : α) : List α :=
  v.take n ++ List.replicate (n - v.length) z

/-! ## Data model -/

/-- Modelled from the spec: the calibration blob `CameraCalibrationParameters`
is declared in `HardwareIO.h`, which is not part of the translated file. The
fields are the ones `F200.cpp` reads; all are `float` (the spec calls `Rmax` a
scalar and gives the depth scale in real arithmetic). -/
structure CameraCalibrationParameters where
  Rmax : float
  Kc : Fin 3 → Fin 3 → float
  Invdistc : Fin 5 → float
  Kt : Fin 3 → Fin 3 → float
  Rt : Fin 3 → Fin 3 → float
  Tt : Fin 3 → float

/-- Modelled from the spec: the distortion-model tag of `rs.h`, with the two
values the source assigns (`none` is the zero value of the enumeration). -/
inductive rs_distortion where
  | RS_DISTORTION_NONE
  | RS_DISTORTION_INVERSE_BROWN_CONRADY
  deriving DecidableEq, Repr

/-- Modelled from the spec: the intrinsic descriptor `rs_intrinsics` of `rs.h`:
image size, focal length, principal point, five distortion coefficients and the
distortion-model tag, in declaration order. -/
structure rs_intrinsics where
  image_size : Fin 2 → Int
  focal_length : Fin 2 → float
  principal_point : Fin 2 → float
  distortion_coeff : Fin 5 → float
  distortion_model : rs_distortion

/-- Aggregate initialisation `rs_intrinsics intrin = {{w,h}}`: the first member
is given, every other member is zero-initialised. -/
def rs_intrinsics.aggregate (w h : Int) : rs_intrinsics :=
  { image_size := ![w, h]
    focal_length := fun _ => 0
    principal_point := fun _ => 0
    distortion_coeff := fun _ => 0
    distortion_model := rs_distortion.RS_DISTORTION_NONE }

/-- The value-initialised descriptor that `std::vector::resize` inserts. -/
def rs_intrinsics.zero : rs_intrinsics := { rs_intrinsics.aggregate 0 0 with image_size := fun _ => 0 }

/-- Modelled from the spec: the stream identifiers of `rs.h` that the source
names. -/
inductive rs_stream where
  | RS_STREAM_DEPTH
  | RS_STREAM_COLOR
  deriving DecidableEq, Repr

/-- Three floats `x, y, z` (`types.h`). -/
abbrev float3 := Fin 3 → float

/-- Three stored `float3` values `x, y, z` (`types.h`): `m i j` is component `j`
of the `i`-th stored vector. -/
abbrev float3x3 := Fin 3 → float3

/-- Modelled from the spec: the extrinsic pose of `types.h`, a rotation and a
translation. -/
structure pose where
  orientation : float3x3
  position : float3

/-- Modelled from the spec: `transpose` of `types.h` is not part of the
translated file; it exchanges the two indices of its argument. -/
def transpose (a : float3x3) : float3x3 := fun i j => a j i

/-- Modelled from the spec: `float3 * float` of `types.h` is not part of the
translated file; it scales each component. -/
def float3.scale (a : float3) (b : float) : float3 := fun i => a i * b

/-- Modelled from the spec: the aggregate `CalibrationInfo` of `types.h`: the
descriptors indexed by resolution tag, a pose per stream, the depth scale. -/
structure CalibrationInfo where
  intrinsics : List rs_intrinsics
  stream_poses : rs_stream → pose
  depth_scale : float

/-! ## Resolution tags -/

/-- First enumerator of the resolution-tag enumeration. -/
def COLOR_480P : Nat := 0
/-- Second enumerator of the resolution-tag enumeration. -/
def COLOR_1080P : Nat := 1
/-- Third enumerator of the resolution-tag enumeration. -/
def DEPTH_480P : Nat := 2
/-- Last enumerator: the number of resolution tags. -/
def NUM_INTRINSICS : Nat := 3

/-! ## Static capability table -/

/-- Modelled from the spec: the frame formats of libuvc that the source names. -/
inductive uvc_frame_format where
  | UVC_FRAME_FORMAT_YUYV
  | UVC_FRAME_FORMAT_INVR
  deriving DecidableEq, Repr

/-- Modelled from the spec: the pixel formats of `rs.h` that the source names. -/
inductive rs_format where
  | RS_FORMAT_RGB8
  | RS_FORMAT_Z16
  deriving DecidableEq, Repr

/-- The pixel-unpacking routines the table refers to, by name. -/
inductive unpacker where
  | unpack_yuyv_to_rgb
  | unpack_strided_image
  deriving DecidableEq, Repr

/-- Modelled from the spec: a stream mode of `types.h`: stream, width, height,
pixel format, frame rate and the resolution tag of its intrinsics. -/
structure StreamMode where
  stream : rs_stream
  width : Int
  height : Int
  format : rs_format
  fps : Int
  intrinsics_index : Nat
  deriving DecidableEq, Repr

/-- Modelled from the spec: a subdevice mode of `types.h`: subdevice, width,
height, frame format, frame rate, the stream modes it provides and the routine
that unpacks its frames. -/
structure SubdeviceMode where
  subdevice : Int
  width : Int
  height : Int
  format : uvc_frame_format
  fps : Int
  streams : List StreamMode
  unpack : unpacker
  deriving DecidableEq, Repr

/-- Modelled from the spec: the static camera description of `types.h`: the
subdevice of each stream and the list of subdevice modes. -/
structure StaticCameraInfo where
  stream_subdevices : rs_stream → Int
  subdevice_modes : List SubdeviceMode

/-- The capability table of the F200 (`get_f200_info`); `info0` is the
default-constructed `StaticCameraInfo info`. -/
def get_f200_info (info0 : StaticCameraInfo) : StaticCameraInfo :=
  let info := info0
  let info := { info with stream_subdevices := fun s =>
    if s = rs_stream.RS_STREAM_COLOR then 0 else info.stream_subdevices s }
  let info := { info with subdevice_modes := info.subdevice_modes ++
    [({ subdevice := 0, width := 640, height := 480,
           format := uvc_frame_format.UVC_FRAME_FORMAT_YUYV, fps := 60,
           streams := [{ stream := rs_stream.RS_STREAM_COLOR, width := 640, height := 480,
                         format := rs_format.RS_FORMAT_RGB8, fps := 60,
                         intrinsics_index := COLOR_480P }],
           unpack := unpacker.unpack_yuyv_to_rgb } : SubdeviceMode)] }
  let info := { info with subdevice_modes := info.subdevice_modes ++
    [({ subdevice := 0, width := 1920, height := 1080,
           format := uvc_frame_format.UVC_FRAME_FORMAT_YUYV, fps := 60,
           streams := [{ stream := rs_stream.RS_STREAM_COLOR, width := 1920, height := 1080,
                         format := rs_format.RS_FORMAT_RGB8, fps := 60,
                         intrinsics_index := COLOR_1080P }],
           unpack := unpacker.unpack_yuyv_to_rgb } : SubdeviceMode)] }
  let info := { info with stream_subdevices := fun s =>
    if s = rs_stream.RS_STREAM_DEPTH then 1 else info.stream_subdevices s }
  let info := { info with subdevice_modes := info.subdevice_modes ++
    [({ subdevice := 1, width := 640, height := 480,
           format := uvc_frame_format.UVC_FRAME_FORMAT_INVR, fps := 60,
           streams := [{ stream := rs_stream.RS_STREAM_DEPTH, width := 640, height := 480,
                         format := rs_format.RS_FORMAT_Z16, fps := 60,
                         intrinsics_index := DEPTH_480P }],
           unpack := unpacker.unpack_strided_image } : SubdeviceMode)] }
  info

/-! ## Calibration derivation -/

/-- Depth intrinsics at `w × h` from the coefficients (`MakeDepthIntrinsics`). -/
def MakeDepthIntrinsics (c : CameraCalibrationParameters) (w h : Int) : rs_intrinsics :=
  let intrin := rs_intrinsics.aggregate w h
  let intrin := { intrin with focal_length := store intrin.focal_length 0 (c.Kc 0 0 * (1/2) * (w : float)) }
  let intrin := { intrin with focal_length := store intrin.focal_length 1 (c.Kc 1 1 * (1/2) * (h : float)) }
  let intrin := { intrin with principal_point := store intrin.principal_point 0 ((c.Kc 0 2 * (1/2) + 1/2) * (w : float)) }
  let intrin := { intrin with principal_point := store intrin.principal_point 1 ((c.Kc 1 2 * (1/2) + 1/2) * (h : float)) }
  let intrin := Fin.foldl 5
    (fun (s : rs_intrinsics) i => { s with distortion_coeff := store s.distortion_coeff i (c.Invdistc i) }) intrin
  let intrin := { intrin with distortion_model := rs_distortion.RS_DISTORTION_INVERSE_BROWN_CONRADY }
  intrin

/-- Color intrinsics at `w × h` from the coefficients (`MakeColorIntrinsics`). -/
def MakeColorIntrinsics (c : CameraCalibrationParameters) (w h : Int) : rs_intrinsics :=
  let intrin := rs_intrinsics.aggregate w h
  let intrin := { intrin with focal_length := store intrin.focal_length 0 (c.Kt 0 0 * (1/2)) }
  let intrin := { intrin with focal_length := store intrin.focal_length 1 (c.Kt 1 1 * (1/2)) }
  let intrin := { intrin with principal_point := store intrin.principal_point 0 (c.Kt 0 2 * (1/2) + 1/2) }
  let intrin := { intrin with principal_point := store intrin.principal_point 1 (c.Kt 1 2 * (1/2) + 1/2) }
  let intrin :=
    if int_mul w 3 = int_mul h 4 then
      let intrin := { intrin with focal_length := store intrin.focal_length 0 (intrin.focal_length 0 * (4/3)) }
      let intrin := { intrin with principal_point := store intrin.principal_point 0 (intrin.principal_point 0 * (4/3)) }
      let intrin := { intrin with principal_point := store intrin.principal_point 0 (intrin.principal_point 0 - 1/6) }
      intrin
    else intrin
  let intrin := { intrin with focal_length := store intrin.focal_length 0 (intrin.focal_length 0 * (w : float)) }
  let intrin := { intrin with focal_length := store intrin.focal_length 1 (intrin.focal_length 1 * (h : float)) }
  let intrin := { intrin with principal_point := store intrin.principal_point 0 (intrin.principal_point 0 * (w : float)) }
  let intrin := { intrin with principal_point := store intrin.principal_point 1 (intrin.principal_point 1 * (h : float)) }
  let intrin := { intrin with distortion_model := rs_distortion.RS_DISTORTION_NONE }
  intrin

/-- The calibration descriptor of the camera (`F200Camera::RetrieveCalibration`).

`hardware_io` is the camera's handle to the hardware-I/O collaborator, created
on first use (`new_hardware_io` is what `new IVCAMHardwareIO(context)` yields);
`GetParameters` is the collaborator's fetch, which may fail with an error `ε`;
`c0` is the default-constructed `CalibrationInfo c`. The result is the handle
after the call and either the error of the fetch or the descriptor.

The reference casts `(const float3x3 &)calib.Rt` and `(const float3 &)calib.Tt`
read the floats in place: row `i` of `Rt` is the `i`-th stored vector. -/
def RetrieveCalibration {ε HW : Type} (new_hardware_io : HW)
    (GetParameters : HW → Except ε CameraCalibrationParameters)
    (hardware_io : Option HW) (c0 : CalibrationInfo) : Option HW × Except ε CalibrationInfo :=
  let hw : HW := match hardware_io with
    | some hw => hw
    | none => new_hardware_io
  match GetParameters hw with
  | Except.error e => (some hw, Except.error e)
  | Except.ok calib =>
    let c := c0
    let c := { c with intrinsics := resize c.intrinsics NUM_INTRINSICS rs_intrinsics.zero }
    let c := { c with intrinsics := c.intrinsics.set COLOR_480P (MakeColorIntrinsics calib 640 480) }
    let c := { c with intrinsics := c.intrinsics.set COLOR_1080P (MakeColorIntrinsics calib 1920 1080) }
    let c := { c with intrinsics := c.intrinsics.set DEPTH_480P (MakeDepthIntrinsics calib 640 480) }
    let c := { c with stream_poses := fun s =>
      if s = rs_stream.RS_STREAM_DEPTH then
        { orientation := ![![1, 0, 0], ![0, 1, 0], ![0, 0, 1]], position := ![0, 0, 0] }
      else c.stream_poses s }
    let c := { c with stream_poses := fun s =>
      if s = rs_stream.RS_STREAM_COLOR then
        { orientation := transpose calib.Rt, position := float3.scale calib.Tt (1/1000) }
      else c.stream_poses s }
    let c := { c with depth_scale := (calib.Rmax / 65535) * (1/1000) }
    (some hw, Except.ok c)

/-! ## Extension-unit parameter channel -/

/-- One byte (`uint8_t`). -/
abbrev uint8_t := Fin 256

/-- Modelled from the spec: the request codes of libuvc; the source names
`UVC_GET_CUR`, the "get current value" request. -/
inductive uvc_req_code where
  | UVC_SET_CUR
  | UVC_GET_CUR
  | UVC_GET_MIN
  | UVC_GET_MAX
  | UVC_GET_RES
  | UVC_GET_LEN
  | UVC_GET_INFO
  | UVC_GET_DEF
  deriving DecidableEq, Repr

/-- Modelled from the spec: the extension-unit descriptor of libuvc, of which
the source reads `bUnitID`. -/
structure uvc_extension_unit where
  bUnitID : Nat

/-- Modelled from the spec: the transport primitives of libuvc over a device
whose state is `σ` (the object behind `uvc_device_handle_t *`).

* `uvc_get_extension_units device` is the descriptor the handle resolves to;
* `uvc_get_ctrl device unit ctrl length buffer req` is the status of the
  request, the content of the `length` bytes at `buffer` after it, and the
  device after it;
* `uvc_set_ctrl device unit ctrl length buffer` is the status of the request
  and the device after it.

A status is a signed integer, negative on failure. -/
structure libuvc (σ : Type) where
  uvc_get_extension_units : σ → uvc_extension_unit
  uvc_get_ctrl : σ → Nat → Nat → (length : Nat) → (Fin length → uint8_t) → uvc_req_code →
    Int × (Fin length → uint8_t) × σ
  uvc_set_ctrl : σ → Nat → Nat → (length : Nat) → (Fin length → uint8_t) → Int × σ

/-- What a call of `xu_read` or `xu_write` leaves behind: the returned `bool`,
the `length` bytes at `buffer`, the device, and what was reported through
`uvc_perror` (status and message). -/
structure xu_outcome (σ : Type) (length : Nat) where
  result : Bool
  buffer : Fin length → uint8_t
  device : σ
  perror : List (Int × String)

/-- Read of `length` bytes of control `xu_ctrl` into `buffer` (`xu_read`). -/
def xu_read {σ : Type} (T : libuvc σ) (device : σ) (xu_ctrl : Nat) (length : Nat)
    (buffer : Fin length → uint8_t) : xu_outcome σ length :=
  let xu_info := T.uvc_get_extension_units device
  let r := T.uvc_get_ctrl device xu_info.bUnitID xu_ctrl length buffer uvc_req_code.UVC_GET_CUR
  let status := r.1
  if status < 0 then
    { result := false, buffer := r.2.1, device := r.2.2,
      perror := [(status, "xu_read - uvc_get_ctrl")] }
  else
    { result := true, buffer := r.2.1, device := r.2.2, perror := [] }

/-- Write of `length` bytes from `buffer` to control `xu_ctrl` (`xu_write`). -/
def xu_write {σ : Type} (T : libuvc σ) (device : σ) (xu_ctrl : Nat) (length : Nat)
    (buffer : Fin length → uint8_t) : xu_outcome σ length :=
  let xu_info := T.uvc_get_extension_units device
  let r := T.uvc_set_ctrl device xu_info.bUnitID xu_ctrl length buffer
  let status := r.1
  if status < 0 then
    { result := false, buffer := buffer, device := r.2,
      perror := [(status, "xu_write - uvc_set_ctrl")] }
  else
    { result := true, buffer := buffer, device := r.2, perror := [] }

/-- The control identifiers of the six depth-sensor parameters: constants of
`F200.h`, which is not part of the translated file, taken as a parameter. -/
structure ivcam_controls where
  IVCAM_DEPTH_LASER_POWER : Nat
  IVCAM_DEPTH_ACCURACY : Nat
  IVCAM_DEPTH_MOTION_RANGE : Nat
  IVCAM_DEPTH_FILTER_OPTION : Nat
  IVCAM_DEPTH_CONFIDENCE_THRESH : Nat
  IVCAM_DEPTH_DYNAMIC_FPS : Nat

/-- The one-byte buffer `&x` of a `uint8_t` variable holding `x`. -/
def byte_buffer (x : uint8_t) : Fin 1 → uint8_t := fun _ => x

/-- Getter of the laser power; the variable `laser_power` is byte 0 of the
outcome's buffer and `sizeof(laser_power)` is 1. -/
def get_laser_power {σ : Type} (T : libuvc σ) (k : ivcam_controls) (device : σ)
    (laser_power : uint8_t) : xu_outcome σ 1 :=
  xu_read T device k.IVCAM_DEPTH_LASER_POWER 1 (byte_buffer laser_power)

/-- Setter of the laser power. -/
def set_laser_power {σ : Type} (T : libuvc σ) (k : ivcam_controls) (device : σ)
    (laser_power : uint8_t) : xu_outcome σ 1 :=
  xu_write T device k.IVCAM_DEPTH_LASER_POWER 1 (byte_buffer laser_power)

/-- Getter of the accuracy mode. -/
def get_accuracy {σ : Type} (T : libuvc σ) (k : ivcam_controls) (device : σ)
    (accuracy : uint8_t) : xu_outcome σ 1 :=
  xu_read T device k.IVCAM_DEPTH_ACCURACY 1 (byte_buffer accuracy)

/-- Setter of the accuracy mode. -/
def set_accuracy {σ : Type} (T : libuvc σ) (k : ivcam_controls) (device : σ)
    (accuracy : uint8_t) : xu_outcome σ 1 :=
  xu_write T device k.IVCAM_DEPTH_ACCURACY 1 (byte_buffer accuracy)

/-- Getter of the motion range. -/
def get_motion_range {σ : Type} (T : libuvc σ) (k : ivcam_controls) (device : σ)
    (motion_range : uint8_t) : xu_outcome σ 1 :=
  xu_read T device k.IVCAM_DEPTH_MOTION_RANGE 1 (byte_buffer motion_range)

/-- Setter of the motion range. -/
def set_motion_range {σ : Type} (T : libuvc σ) (k : ivcam_controls) (device : σ)
    (motion_range : uint8_t) : xu_outcome σ 1 :=
  xu_write T device k.IVCAM_DEPTH_MOTION_RANGE 1 (byte_buffer motion_range)

/-- Getter of the filter option. -/
def get_filter_option {σ : Type} (T : libuvc σ) (k : ivcam_controls) (device : σ)
    (filter_option : uint8_t) : xu_outcome σ 1 :=
  xu_read T device k.IVCAM_DEPTH_FILTER_OPTION 1 (byte_buffer filter_option)

/-- Setter of the filter option. -/
def set_filter_option {σ : Type} (T : libuvc σ) (k : ivcam_controls) (device : σ)
    (filter_option : uint8_t) : xu_outcome σ 1 :=
  xu_write T device k.IVCAM_DEPTH_FILTER_OPTION 1 (byte_buffer filter_option)

/-- Getter of the confidence threshold. -/
def get_confidence_threshhold {σ : Type} (T : libuvc σ) (k : ivcam_controls) (device : σ)
    (conf_thresh : uint8_t) : xu_outcome σ 1 :=
  xu_read T device k.IVCAM_DEPTH_CONFIDENCE_THRESH 1 (byte_buffer conf_thresh)

/-- Setter of the confidence threshold. -/
def set_confidence_threshhold {σ : Type} (T : libuvc σ) (k : ivcam_controls) (device : σ)
    (conf_thresh : uint8_t) : xu_outcome σ 1 :=
  xu_write T device k.IVCAM_DEPTH_CONFIDENCE_THRESH 1 (byte_buffer conf_thresh)

/-- Getter of the dynamic FPS setting. -/
def get_dynamic_fps {σ : Type} (T : libuvc σ) (k : ivcam_controls) (device : σ)
    (dynamic_fps : uint8_t) : xu_outcome σ 1 :=
  xu_read T device k.IVCAM_DEPTH_DYNAMIC_FPS 1 (byte_buffer dynamic_fps)

/-- Setter of the dynamic FPS setting. -/
def set_dynamic_fps {σ : Type} (T : libuvc σ) (k : ivcam_controls) (device : σ)
    (dynamic_fps : uint8_t) : xu_outcome σ 1 :=
  xu_write T device k.IVCAM_DEPTH_DYNAMIC_FPS 1 (byte_buffer dynamic_fps)

/-! ## Simulated devices -/

/-- A transport echoes the last-written value: a set request is accepted, it
leaves the extension unit of the device in place, and a get-current request for
the same unit, control and length that follows it is accepted and yields the
bytes that were written. -/
def echoes {σ : Type} (T : libuvc σ) : Prop :=
  ∀ (s : σ) (unit ctrl length : Nat) (written scratch : Fin length → uint8_t),
    0 ≤ (T.uvc_set_ctrl s unit ctrl length written).1 ∧
    (T.uvc_get_extension_units (T.uvc_set_ctrl s unit ctrl length written).2).bUnitID
      = (T.uvc_get_extension_units s).bUnitID ∧
    0 ≤ (T.uvc_get_ctrl (T.uvc_set_ctrl s unit ctrl length written).2 unit ctrl length scratch
          uvc_req_code.UVC_GET_CUR).1 ∧
    (T.uvc_get_ctrl (T.uvc_set_ctrl s unit ctrl length written).2 unit ctrl length scratch
          uvc_req_code.UVC_GET_CUR).2.1 = written

/-- A simulated device with one register file per unit and control: the state
gives byte `i` of control `ctrl` of unit `unit`; a set request stores its bytes,
a get request returns the stored bytes; both report status 0. -/
def echo_device : libuvc (Nat → Nat → Nat → uint8_t) :=
  { uvc_get_extension_units := fun _ => { bUnitID := 5 }
    uvc_get_ctrl := fun s unit ctrl _ _ _ => (0, fun i => s unit ctrl i.val, s)
    uvc_set_ctrl := fun s unit ctrl length buffer =>
      (0, fun u c i => if h : u = unit ∧ c = ctrl ∧ i < length then buffer ⟨i, h.2.2⟩ else s u c i) }

/-- A simulated device whose get request writes `0xFF` to every byte of the
buffer and then fails with status -1. -/
def clobbering_device : libuvc Unit :=
  { uvc_get_extension_units := fun _ => { bUnitID := 5 }
    uvc_get_ctrl := fun s _ _ _ _ _ => (-1, fun _ => 255, s)
    uvc_set_ctrl := fun s _ _ _ _ => (-1, s) }

/-- A simulated device whose requests fail with status -1 and leave the buffer
as it was. -/
def failing_device : libuvc Unit :=
  { uvc_get_extension_units := fun _ => { bUnitID := 5 }
    uvc_get_ctrl := fun s _ _ _ buffer _ => (-1, buffer, s)
    uvc_set_ctrl := fun s _ _ _ _ => (-1, s) }

/-- The control identifiers 1, 2, 3, 5, 6, 7. -/
def sample_controls : ivcam_controls :=
  { IVCAM_DEPTH_LASER_POWER := 1
    IVCAM_DEPTH_ACCURACY := 2
    IVCAM_DEPTH_MOTION_RANGE := 3
    IVCAM_DEPTH_FILTER_OPTION := 5
    IVCAM_DEPTH_CONFIDENCE_THRESH := 6
    IVCAM_DEPTH_DYNAMIC_FPS := 7 }

/-- A request as seen by the transport: its kind, unit, control, length, and
the request code of a get or the bytes of a set. -/
inductive uvc_request where
  | get_ctrl (unit ctrl length : Nat) (req_code : uvc_req_code)
  | set_ctrl (unit ctrl length : Nat) (payload : List uint8_t)
  deriving DecidableEq, Repr

/-- A transport that behaves as `T` and appends every request it receives to a
log kept next to the device. -/
def recording {σ : Type} (T : libuvc σ) : libuvc (σ × List uvc_request) :=
  { uvc_get_extension_units := fun s => T.uvc_get_extension_units s.1
    uvc_get_ctrl := fun s unit ctrl length buffer req_code =>
      ((T.uvc_get_ctrl s.1 unit ctrl length buffer req_code).1,
       (T.uvc_get_ctrl s.1 unit ctrl length buffer req_code).2.1,
       ((T.uvc_get_ctrl s.1 unit ctrl length buffer req_code).2.2,
        s.2 ++ [uvc_request.get_ctrl unit ctrl length req_code]))
    uvc_set_ctrl := fun s unit ctrl length buffer =>
      ((T.uvc_set_ctrl s.1 unit ctrl length buffer).1,
       ((T.uvc_set_ctrl s.1 unit ctrl length buffer).2,
        s.2 ++ [uvc_request.set_ctrl unit ctrl length (List.ofFn buffer)])) }

/-- A `StaticCameraInfo` with an empty vector of modes. -/
def blank_static_info : StaticCameraInfo :=
  { stream_subdevices := fun _ => 0
    subdevice_modes := [] }

/-! ## Sample data -/

/-- A calibration blob with rational entries, used to evaluate the definitions. -/
def sample_calib : CameraCalibrationParameters :=
  { Rmax := 65535
    Kc := ![![1, 0, 1/10], ![0, 4/3, -1/20], ![0, 0, 1]]
    Invdistc := ![1/10, -1/5, 0, 1/100, 3/10]
    Kt := ![![9/8, 0, 1/16], ![0, 2, -1/32], ![0, 0, 1]]
    Rt := ![![1, 1/100, 0], ![-1/100, 1, 1/50], ![0, -1/50, 1]]
    Tt := ![25, 1/2, -3/10] }

/-- A `CalibrationInfo` with an empty vector and zeroed floats. -/
def blank_info : CalibrationInfo :=
  { intrinsics := []
    stream_poses := fun _ => { orientation := fun _ _ => 0, position := fun _ => 0 }
    depth_scale := 0 }

/-- A fetch that succeeds with `sample_calib` on every handle. -/
def sample_fetch : Unit → Except String CameraCalibrationParameters :=
  fun _ => Except.ok sample_calib

/-- The sample coefficients with a negative vertical focal term `Kt[1][1]`. -/
def flipped_calib : CameraCalibrationParameters :=
  { sample_calib with Kt := ![![9/8, 0, 1/16], ![0, -2, -1/32], ![0, 0, 1]] }

/-- The sample coefficients with a centred horizontal principal point,
`Kt[0][2] = 0`. -/
def centred_calib : CameraCalibrationParameters :=
  { sample_calib with Kt := ![![9/8, 0, 0], ![0, 2, -1/32], ![0, 0, 1]] }

/-! ## Lemmas -/

/-- The five iterations of a loop `for(int i=0; i<5; ++i)`. -/
theorem foldl_five {α : Type} (f : α → Fin 5 → α) (x : α) :
    Fin.foldl 5 f x = f (f (f (f (f x 0) 1) 2) 3) 4 := by
  simp [Fin.foldl_succ_last]
  rfl

theorem int_wrap_of_range (x : Int) (hx : int_range x) : int_wrap x = x := by
  unfold int_range at hx
  unfold int_wrap
  omega

theorem int_mul_of_range (a b : Int) (hx : int_range (a * b)) : int_mul a b = a * b :=
  int_wrap_of_range (a * b) hx

/-- For sizes whose products fit in an `int`, the test of the aspect-ratio
branch is the comparison of the two products. -/
theorem aspect_test_of_range (w h : Int) (hw : int_range (w * 3)) (hh : int_range (h * 4)) :
    int_mul w 3 = int_mul h 4 ↔ w * 3 = h * 4 := by
  rw [int_mul_of_range w 3 hw, int_mul_of_range h 4 hh]

/-- The value `RetrieveCalibration` returns once the fetch has succeeded. -/
theorem RetrieveCalibration_ok {ε HW : Type} (new_hardware_io : HW)
    (GetParameters : HW → Except ε CameraCalibrationParameters)
    (hardware_io : Option HW) (c0 : CalibrationInfo) (calib : CameraCalibrationParameters)
    (hfetch : GetParameters (hardware_io.getD new_hardware_io) = Except.ok calib) :
    (RetrieveCalibration new_hardware_io GetParameters hardware_io c0).2 = Except.ok
      { intrinsics :=
          (((resize c0.intrinsics NUM_INTRINSICS rs_intrinsics.zero).set COLOR_480P
            (MakeColorIntrinsics calib 640 480)).set COLOR_1080P
            (MakeColorIntrinsics calib 1920 1080)).set DEPTH_480P
            (MakeDepthIntrinsics calib 640 480)
        stream_poses := fun s =>
          if s = rs_stream.RS_STREAM_COLOR then
            { orientation := transpose calib.Rt, position := float3.scale calib.Tt (1/1000) }
          else if s = rs_stream.RS_STREAM_DEPTH then
            { orientation := ![![1, 0, 0], ![0, 1, 0], ![0, 0, 1]], position := ![0, 0, 0] }
          else c0.stream_poses s
        depth_scale := (calib.Rmax / 65535) * (1/1000) } := by
  cases hardware_io with
  | none =>
    simp only [Option.getD_none] at hfetch
    simp [RetrieveCalibration, hfetch]
  | some hw =>
    simp only [Option.getD_some] at hfetch
    simp [RetrieveCalibration, hfetch]

/-- The outcome of `xu_read` when the request fails. -/
theorem xu_read_of_neg {σ : Type} (T : libuvc σ) (device : σ) (xu_ctrl length : Nat)
    (buffer : Fin length → uint8_t)
    (hneg : (T.uvc_get_ctrl device (T.uvc_get_extension_units device).bUnitID xu_ctrl length
      buffer uvc_req_code.UVC_GET_CUR).1 < 0) :
    xu_read T device xu_ctrl length buffer =
      { result := false
        buffer := (T.uvc_get_ctrl device (T.uvc_get_extension_units device).bUnitID xu_ctrl
          length buffer uvc_req_code.UVC_GET_CUR).2.1
        device := (T.uvc_get_ctrl device (T.uvc_get_extension_units device).bUnitID xu_ctrl
          length buffer uvc_req_code.UVC_GET_CUR).2.2
        perror := [((T.uvc_get_ctrl device (T.uvc_get_extension_units device).bUnitID xu_ctrl
          length buffer uvc_req_code.UVC_GET_CUR).1, "xu_read - uvc_get_ctrl")] } := by
  unfold xu_read
  dsimp only
  rw [if_pos hneg]

/-- The outcome of `xu_read` when the request is accepted. -/
theorem xu_read_of_nonneg {σ : Type} (T : libuvc σ) (device : σ) (xu_ctrl length : Nat)
    (buffer : Fin length → uint8_t)
    (hok : 0 ≤ (T.uvc_get_ctrl device (T.uvc_get_extension_units device).bUnitID xu_ctrl length
      buffer uvc_req_code.UVC_GET_CUR).1) :
    xu_read T device xu_ctrl length buffer =
      { result := true
        buffer := (T.uvc_get_ctrl device (T.uvc_get_extension_units device).bUnitID xu_ctrl
          length buffer uvc_req_code.UVC_GET_CUR).2.1
        device := (T.uvc_get_ctrl device (T.uvc_get_extension_units device).bUnitID xu_ctrl
          length buffer uvc_req_code.UVC_GET_CUR).2.2
        perror := [] } := by
  unfold xu_read
  dsimp only
  rw [if_neg (not_lt.mpr hok)]

/-- The outcome of `xu_write` when the request fails. -/
theorem xu_write_of_neg {σ : Type} (T : libuvc σ) (device : σ) (xu_ctrl length : Nat)
    (buffer : Fin length → uint8_t)
    (hneg : (T.uvc_set_ctrl device (T.uvc_get_extension_units device).bUnitID xu_ctrl length
      buffer).1 < 0) :
    xu_write T device xu_ctrl length buffer =
      { result := false
        buffer := buffer
        device := (T.uvc_set_ctrl device (T.uvc_get_extension_units device).bUnitID xu_ctrl
          length buffer).2
        perror := [((T.uvc_set_ctrl device (T.uvc_get_extension_units device).bUnitID xu_ctrl
          length buffer).1, "xu_write - uvc_set_ctrl")] } := by
  unfold xu_write
  dsimp only
  rw [if_pos hneg]

/-- The outcome of `xu_write` when the request is accepted. -/
theorem xu_write_of_nonneg {σ : Type} (T : libuvc σ) (device : σ) (xu_ctrl length : Nat)
    (buffer : Fin length → uint8_t)
    (hok : 0 ≤ (T.uvc_set_ctrl device (T.uvc_get_extension_units device).bUnitID xu_ctrl length
      buffer).1) :
    xu_write T device xu_ctrl length buffer =
      { result := true
        buffer := buffer
        device := (T.uvc_set_ctrl device (T.uvc_get_extension_units device).bUnitID xu_ctrl
          length buffer).2
        perror := [] } := by
  unfold xu_write
  dsimp only
  rw [if_neg (not_lt.mpr hok)]

/-- The horizontal outputs of `MakeColorIntrinsics` when the test of the
aspect-ratio branch succeeds. -/
theorem MakeColorIntrinsics_of_test (c : CameraCalibrationParameters) (w h : Int)
    (htest : int_mul w 3 = int_mul h 4) :
    (MakeColorIntrinsics c w h).focal_length 0 = (c.Kt 0 0 * (1/2) * (4/3)) * (w : ℚ) ∧
    (MakeColorIntrinsics c w h).principal_point 0
      = ((c.Kt 0 2 * (1/2) + 1/2) * (4/3) - 1/6) * (w : ℚ) := by
  simp [MakeColorIntrinsics, store, htest]

/-- The horizontal outputs of `MakeColorIntrinsics` when the test of the
aspect-ratio branch fails. -/
theorem MakeColorIntrinsics_of_not_test (c : CameraCalibrationParameters) (w h : Int)
    (htest : int_mul w 3 ≠ int_mul h 4) :
    (MakeColorIntrinsics c w h).focal_length 0 = c.Kt 0 0 * (1/2) * (w : ℚ) ∧
    (MakeColorIntrinsics c w h).principal_point 0 = (c.Kt 0 2 * (1/2) + 1/2) * (w : ℚ) := by
  simp [MakeColorIntrinsics, store, htest]

/-- The vertical outputs of `MakeColorIntrinsics`, on either side of the
aspect-ratio branch. -/
theorem MakeColorIntrinsics_vertical (c : CameraCalibrationParameters) (w h : Int) :
    (MakeColorIntrinsics c w h).focal_length 1 = c.Kt 1 1 * (1/2) * (h : ℚ) ∧
    (MakeColorIntrinsics c w h).principal_point 1 = (c.Kt 1 2 * (1/2) + 1/2) * (h : ℚ) := by
  by_cases htest : int_mul w 3 = int_mul h 4 <;>
    simp [MakeColorIntrinsics, store, htest]

/-- The image size and the distortion tag of `MakeColorIntrinsics`. -/
theorem MakeColorIntrinsics_header (c : CameraCalibrationParameters) (w h : Int) :
    (MakeColorIntrinsics c w h).image_size 0 = w ∧
    (MakeColorIntrinsics c w h).image_size 1 = h ∧
    (MakeColorIntrinsics c w h).distortion_model = rs_distortion.RS_DISTORTION_NONE := by
  by_cases htest : int_mul w 3 = int_mul h 4 <;>
    simp [MakeColorIntrinsics, htest, rs_intrinsics.aggregate]

/-- The image size and the distortion tag of `MakeDepthIntrinsics`. -/
theorem MakeDepthIntrinsics_header (c : CameraCalibrationParameters) (w h : Int) :
    (MakeDepthIntrinsics c w h).image_size 0 = w ∧
    (MakeDepthIntrinsics c w h).image_size 1 = h ∧
    (MakeDepthIntrinsics c w h).distortion_model
      = rs_distortion.RS_DISTORTION_INVERSE_BROWN_CONRADY := by
  simp [MakeDepthIntrinsics, rs_intrinsics.aggregate, foldl_five]

/-- An `int` whose triple is a multiple of `2^34` is zero. -/
theorem int_zero_of_triple (w d : Int) (hw : int_range w) (h3 : w * 3 = 17179869184 * d) :
    w = 0 := by
  obtain ⟨hlo, hhi⟩ := hw
  have hd : d = 0 := by
    rcases lt_trichotomy d 0 with hneg | hzero | hpos
    · have hle : d ≤ -1 := by linarith [Int.lt_iff_add_one_le.mp hneg]
      linarith
    · exact hzero
    · have hge : 1 ≤ d := hpos
      linarith
  rw [hd] at h3
  linarith

/-- An `int` width of a 16:9 size passes the 4:3 test only when it is zero. -/
theorem sixteen_ninths_test (w h : Int) (hw : int_range w) (h169 : w * 9 = h * 16)
    (htest : int_mul w 3 = int_mul h 4) : w = 0 ∧ h = 0 := by
  unfold int_mul int_wrap at htest
  have e1 := Int.emod_add_ediv (w * 3 + 2147483648) 4294967296
  have e2 := Int.emod_add_ediv (h * 4 + 2147483648) 4294967296
  have h3 : w * 3 = 17179869184 *
      ((w * 3 + 2147483648) / 4294967296 - (h * 4 + 2147483648) / 4294967296) := by
    linarith
  have hzero := int_zero_of_triple w _ hw h3
  subst hzero
  refine ⟨rfl, ?_⟩
  linarith

/-- The error `RetrieveCalibration` returns once the fetch has failed. -/
theorem RetrieveCalibration_error {ε HW : Type} (new_hardware_io : HW)
    (GetParameters : HW → Except ε CameraCalibrationParameters)
    (hardware_io : Option HW) (c0 : CalibrationInfo) (e : ε)
    (hfetch : GetParameters (hardware_io.getD new_hardware_io) = Except.error e) :
    (RetrieveCalibration new_hardware_io GetParameters hardware_io c0).2 = Except.error e := by
  cases hardware_io with
  | none =>
    simp only [Option.getD_none] at hfetch
    simp [RetrieveCalibration, hfetch]
  | some hw =>
    simp only [Option.getD_some] at hfetch
    simp [RetrieveCalibration, hfetch]

/-- The size of a vector after `resize(n)`. -/
theorem resize_length {α : Type} (v : List α) (n : Nat) (z : α) :
    (resize v n z).length = n := by
  simp only [resize, List.length_append, List.length_take, List.length_replicate]
  omega

/-- Three assignments to the three elements of a vector of size three. -/
theorem set_three {α : Type} (v : List α) (hv : v.length = 3) (a b c : α) :
    ((v.set 0 a).set 1 b).set 2 c = [a, b, c] := by
  match v, hv with
  | [_, _, _], _ => rfl

/-- The descriptors `RetrieveCalibration` stores, in tag order. -/
theorem RetrieveCalibration_intrinsics {ε HW : Type} (new_hardware_io : HW)
    (GetParameters : HW → Except ε CameraCalibrationParameters)
    (hardware_io : Option HW) (c0 : CalibrationInfo) (calib : CameraCalibrationParameters)
    (hfetch : GetParameters (hardware_io.getD new_hardware_io) = Except.ok calib) :
    ∃ info : CalibrationInfo,
      (RetrieveCalibration new_hardware_io GetParameters hardware_io c0).2 = Except.ok info ∧
      info.intrinsics = [MakeColorIntrinsics calib 640 480, MakeColorIntrinsics calib 1920 1080,
        MakeDepthIntrinsics calib 640 480] := by
  refine ⟨_, RetrieveCalibration_ok new_hardware_io GetParameters hardware_io c0 calib hfetch, ?_⟩
  exact set_three _ (resize_length _ _ _) _ _ _

/-- The modes `get_f200_info` lists when it starts from an empty vector. -/
theorem get_f200_info_modes (info0 : StaticCameraInfo) (hempty : info0.subdevice_modes = []) :
    (get_f200_info info0).subdevice_modes =
      [{ subdevice := 0, width := 640, height := 480,
         format := uvc_frame_format.UVC_FRAME_FORMAT_YUYV, fps := 60,
         streams := [{ stream := rs_stream.RS_STREAM_COLOR, width := 640, height := 480,
                       format := rs_format.RS_FORMAT_RGB8, fps := 60,
                       intrinsics_index := COLOR_480P }],
         unpack := unpacker.unpack_yuyv_to_rgb },
       { subdevice := 0, width := 1920, height := 1080,
         format := uvc_frame_format.UVC_FRAME_FORMAT_YUYV, fps := 60,
         streams := [{ stream := rs_stream.RS_STREAM_COLOR, width := 1920, height := 1080,
                       format := rs_format.RS_FORMAT_RGB8, fps := 60,
                       intrinsics_index := COLOR_1080P }],
         unpack := unpacker.unpack_yuyv_to_rgb },
       { subdevice := 1, width := 640, height := 480,
         format := uvc_frame_format.UVC_FRAME_FORMAT_INVR, fps := 60,
         streams := [{ stream := rs_stream.RS_STREAM_DEPTH, width := 640, height := 480,
                       format := rs_format.RS_FORMAT_Z16, fps := 60,
                       intrinsics_index := DEPTH_480P }],
         unpack := unpacker.unpack_strided_image }] := by
  simp [get_f200_info, hempty]

/-- The device `xu_write` leaves: the one the set request leaves. -/
theorem xu_write_device {σ : Type} (T : libuvc σ) (device : σ) (xu_ctrl length : Nat)
    (buffer : Fin length → uint8_t) :
    (xu_write T device xu_ctrl length buffer).device
      = (T.uvc_set_ctrl device (T.uvc_get_extension_units device).bUnitID xu_ctrl length
          buffer).2 := by
  by_cases hneg : (T.uvc_set_ctrl device (T.uvc_get_extension_units device).bUnitID xu_ctrl
      length buffer).1 < 0
  · rw [xu_write_of_neg T device xu_ctrl length buffer hneg]
  · rw [xu_write_of_nonneg T device xu_ctrl length buffer (not_lt.mp hneg)]

/-- The device `xu_read` leaves: the one the get request leaves. -/
theorem xu_read_device {σ : Type} (T : libuvc σ) (device : σ) (xu_ctrl length : Nat)
    (buffer : Fin length → uint8_t) :
    (xu_read T device xu_ctrl length buffer).device
      = (T.uvc_get_ctrl device (T.uvc_get_extension_units device).bUnitID xu_ctrl length
          buffer uvc_req_code.UVC_GET_CUR).2.2 := by
  by_cases hneg : (T.uvc_get_ctrl device (T.uvc_get_extension_units device).bUnitID xu_ctrl
      length buffer uvc_req_code.UVC_GET_CUR).1 < 0
  · rw [xu_read_of_neg T device xu_ctrl length buffer hneg]
  · rw [xu_read_of_nonneg T device xu_ctrl length buffer (not_lt.mp hneg)]

/-- The bytes `xu_read` leaves in the buffer: the ones the get request leaves. -/
theorem xu_read_buffer {σ : Type} (T : libuvc σ) (device : σ) (xu_ctrl length : Nat)
    (buffer : Fin length → uint8_t) :
    (xu_read T device xu_ctrl length buffer).buffer
      = (T.uvc_get_ctrl device (T.uvc_get_extension_units device).bUnitID xu_ctrl length
          buffer uvc_req_code.UVC_GET_CUR).2.1 := by
  by_cases hneg : (T.uvc_get_ctrl device (T.uvc_get_extension_units device).bUnitID xu_ctrl
      length buffer uvc_req_code.UVC_GET_CUR).1 < 0
  · rw [xu_read_of_neg T device xu_ctrl length buffer hneg]
  · rw [xu_read_of_nonneg T device xu_ctrl length buffer (not_lt.mp hneg)]

/-- On a recording transport `xu_write` of one byte logs one set request, with
the unit of the device, the control and the byte it was given. -/
theorem xu_write_recorded {σ : Type} (T : libuvc σ) (device : σ) (log : List uvc_request)
    (xu_ctrl : Nat) (v : uint8_t) :
    (xu_write (recording T) (device, log) xu_ctrl 1 (byte_buffer v)).device
      = ((T.uvc_set_ctrl device (T.uvc_get_extension_units device).bUnitID xu_ctrl 1
            (byte_buffer v)).2,
         log ++ [uvc_request.set_ctrl (T.uvc_get_extension_units device).bUnitID xu_ctrl 1
            [v]]) := by
  rw [xu_write_device]
  rfl

/-- On a recording transport `xu_read` of one byte logs one get-current
request, with the unit of the device and the control it was given. -/
theorem xu_read_recorded {σ : Type} (T : libuvc σ) (device : σ) (log : List uvc_request)
    (xu_ctrl : Nat) (x : uint8_t) :
    (xu_read (recording T) (device, log) xu_ctrl 1 (byte_buffer x)).device
      = ((T.uvc_get_ctrl device (T.uvc_get_extension_units device).bUnitID xu_ctrl 1
            (byte_buffer x) uvc_req_code.UVC_GET_CUR).2.2,
         log ++ [uvc_request.get_ctrl (T.uvc_get_extension_units device).bUnitID xu_ctrl 1
            uvc_req_code.UVC_GET_CUR]) := by
  rw [xu_read_device]
  rfl

/-! ## Theorems -/

/-- C1: for sizes with `w*3 = h*4`, the 4:3 correction is applied before the
scaling by the pixel width: the horizontal focal length is
`(Kt[0][0]*0.5*(4/3))*w` and the horizontal principal point is
`((Kt[0][2]*0.5 + 0.5)*(4/3) - 1/6)*w`. The equality of the two products makes
the 32-bit test succeed whether or not they fit in an `int`. -/
theorem MakeColorIntrinsics_four_thirds (c : CameraCalibrationParameters) (w h : Int)
    (h43 : w * 3 = h * 4) :
    (MakeColorIntrinsics c w h).focal_length 0 = (c.Kt 0 0 * (1/2) * (4/3)) * (w : ℚ) ∧
    (MakeColorIntrinsics c w h).principal_point 0
      = ((c.Kt 0 2 * (1/2) + 1/2) * (4/3) - 1/6) * (w : ℚ) := by
  have htest : int_mul w 3 = int_mul h 4 := by unfold int_mul; rw [h43]
  simp [MakeColorIntrinsics, store, htest]

/-- The 4:3 correction of C1 at 640x480 and at 800x600. -/
theorem MakeColorIntrinsics_four_thirds_witness :
    ((MakeColorIntrinsics sample_calib 640 480).focal_length 0
        = (sample_calib.Kt 0 0 * (1/2) * (4/3)) * ((640 : Int) : ℚ) ∧
      (MakeColorIntrinsics sample_calib 640 480).principal_point 0
        = ((sample_calib.Kt 0 2 * (1/2) + 1/2) * (4/3) - 1/6) * ((640 : Int) : ℚ)) ∧
    ((MakeColorIntrinsics sample_calib 800 600).focal_length 0
        = (sample_calib.Kt 0 0 * (1/2) * (4/3)) * ((800 : Int) : ℚ) ∧
      (MakeColorIntrinsics sample_calib 800 600).principal_point 0
        = ((sample_calib.Kt 0 2 * (1/2) + 1/2) * (4/3) - 1/6) * ((800 : Int) : ℚ)) :=
  ⟨MakeColorIntrinsics_four_thirds sample_calib 640 480 (by decide),
   MakeColorIntrinsics_four_thirds sample_calib 800 600 (by decide)⟩

/-- C2: whenever the test `w*3 == h*4` of the aspect-ratio branch, as the code
computes it on `int` operands, is false, no correction is applied: the
horizontal focal length is `Kt[0][0]*0.5*w` and the horizontal principal point
is `(Kt[0][2]*0.5 + 0.5)*w`. -/
theorem MakeColorIntrinsics_no_correction (c : CameraCalibrationParameters) (w h : Int)
    (htest : int_mul w 3 ≠ int_mul h 4) :
    (MakeColorIntrinsics c w h).focal_length 0 = c.Kt 0 0 * (1/2) * (w : ℚ) ∧
    (MakeColorIntrinsics c w h).principal_point 0 = (c.Kt 0 2 * (1/2) + 1/2) * (w : ℚ) := by
  simp [MakeColorIntrinsics, store, htest]

/-- No correction at 1920x1080, at 640x360 and at the 1:1 size 480x480. -/
theorem MakeColorIntrinsics_no_correction_witness :
    ((MakeColorIntrinsics sample_calib 1920 1080).focal_length 0
        = sample_calib.Kt 0 0 * (1/2) * ((1920 : Int) : ℚ) ∧
      (MakeColorIntrinsics sample_calib 1920 1080).principal_point 0
        = (sample_calib.Kt 0 2 * (1/2) + 1/2) * ((1920 : Int) : ℚ)) ∧
    ((MakeColorIntrinsics sample_calib 640 360).focal_length 0
        = sample_calib.Kt 0 0 * (1/2) * ((640 : Int) : ℚ) ∧
      (MakeColorIntrinsics sample_calib 640 360).principal_point 0
        = (sample_calib.Kt 0 2 * (1/2) + 1/2) * ((640 : Int) : ℚ)) ∧
    ((MakeColorIntrinsics sample_calib 480 480).focal_length 0
        = sample_calib.Kt 0 0 * (1/2) * ((480 : Int) : ℚ) ∧
      (MakeColorIntrinsics sample_calib 480 480).principal_point 0
        = (sample_calib.Kt 0 2 * (1/2) + 1/2) * ((480 : Int) : ℚ)) :=
  ⟨MakeColorIntrinsics_no_correction sample_calib 1920 1080 (by decide),
   MakeColorIntrinsics_no_correction sample_calib 640 360 (by decide),
   MakeColorIntrinsics_no_correction sample_calib 480 480 (by decide)⟩

/-- C3: `MakeDepthIntrinsics(c, w, h)` has image size `(w, h)`, focal length
`(Kc[0][0]*0.5*w, Kc[1][1]*0.5*h)`, principal point
`((Kc[0][2]*0.5 + 0.5)*w, (Kc[1][2]*0.5 + 0.5)*h)` and distortion coefficients
`Invdistc[0..4]`, at every size: no aspect-ratio correction is applied. -/
theorem MakeDepthIntrinsics_spec (c : CameraCalibrationParameters) (w h : Int) :
    (MakeDepthIntrinsics c w h).image_size 0 = w ∧
    (MakeDepthIntrinsics c w h).image_size 1 = h ∧
    (MakeDepthIntrinsics c w h).focal_length 0 = c.Kc 0 0 * (1/2) * (w : ℚ) ∧
    (MakeDepthIntrinsics c w h).focal_length 1 = c.Kc 1 1 * (1/2) * (h : ℚ) ∧
    (MakeDepthIntrinsics c w h).principal_point 0 = (c.Kc 0 2 * (1/2) + 1/2) * (w : ℚ) ∧
    (MakeDepthIntrinsics c w h).principal_point 1 = (c.Kc 1 2 * (1/2) + 1/2) * (h : ℚ) ∧
    ∀ i : Fin 5, (MakeDepthIntrinsics c w h).distortion_coeff i = c.Invdistc i := by
  refine ⟨?_, ?_, ?_, ?_, ?_, ?_, ?_⟩
  · simp [MakeDepthIntrinsics, rs_intrinsics.aggregate, foldl_five]
  · simp [MakeDepthIntrinsics, rs_intrinsics.aggregate, foldl_five]
  · simp [MakeDepthIntrinsics, store, foldl_five]
  · simp [MakeDepthIntrinsics, store, foldl_five]
  · simp [MakeDepthIntrinsics, store, foldl_five]
  · simp [MakeDepthIntrinsics, store, foldl_five]
  · intro i
    fin_cases i <;> simp [MakeDepthIntrinsics, store, foldl_five]

/-- C4: the depth scale of the descriptor built by `RetrieveCalibration` is
`(Rmax / 65535) * 0.001`, for every `Rmax` (positive or not); for
`Rmax = 65535` it is `0.001`. -/
theorem RetrieveCalibration_depth_scale {ε HW : Type} (new_hardware_io : HW)
    (GetParameters : HW → Except ε CameraCalibrationParameters)
    (hardware_io : Option HW) (c0 : CalibrationInfo) (calib : CameraCalibrationParameters)
    (hfetch : GetParameters (hardware_io.getD new_hardware_io) = Except.ok calib) :
    ∃ info : CalibrationInfo,
      (RetrieveCalibration new_hardware_io GetParameters hardware_io c0).2 = Except.ok info ∧
      info.depth_scale = (calib.Rmax / 65535) * (1/1000) ∧
      (calib.Rmax = 65535 → info.depth_scale = 1/1000) := by
  refine ⟨_, RetrieveCalibration_ok new_hardware_io GetParameters hardware_io c0 calib hfetch,
    rfl, ?_⟩
  intro hmax
  simp only [hmax]
  norm_num

/-- The depth scale of C4 for the sample coefficients, whose `Rmax` is 65535:
the descriptor is built and its depth scale is `0.001`. -/
theorem RetrieveCalibration_depth_scale_witness :
    ∃ info : CalibrationInfo,
      (RetrieveCalibration () sample_fetch none blank_info).2 = Except.ok info ∧
      info.depth_scale = 1/1000 :=
  match RetrieveCalibration_depth_scale () sample_fetch none blank_info sample_calib rfl with
  | ⟨info, hinfo, _, hmax⟩ => ⟨info, hinfo, hmax rfl⟩

/-- C5: the pose of the color stream in the descriptor built by
`RetrieveCalibration` has as rotation the transpose of `Rt` (entry `(i,j)` is
`Rt[j][i]`) and as translation `Tt` scaled once by `0.001`. -/
theorem RetrieveCalibration_color_pose {ε HW : Type} (new_hardware_io : HW)
    (GetParameters : HW → Except ε CameraCalibrationParameters)
    (hardware_io : Option HW) (c0 : CalibrationInfo) (calib : CameraCalibrationParameters)
    (hfetch : GetParameters (hardware_io.getD new_hardware_io) = Except.ok calib) :
    ∃ info : CalibrationInfo,
      (RetrieveCalibration new_hardware_io GetParameters hardware_io c0).2 = Except.ok info ∧
      (∀ i j : Fin 3,
        (info.stream_poses rs_stream.RS_STREAM_COLOR).orientation i j = calib.Rt j i) ∧
      (∀ i : Fin 3,
        (info.stream_poses rs_stream.RS_STREAM_COLOR).position i = calib.Tt i * (1/1000)) := by
  refine ⟨_, RetrieveCalibration_ok new_hardware_io GetParameters hardware_io c0 calib hfetch,
    ?_, ?_⟩
  · intro i j
    simp [transpose]
  · intro i
    simp [float3.scale]

/-- The color pose of C5 for the sample coefficients. -/
theorem RetrieveCalibration_color_pose_witness :
    ∃ info : CalibrationInfo,
      (RetrieveCalibration () sample_fetch none blank_info).2 = Except.ok info ∧
      (∀ i j : Fin 3,
        (info.stream_poses rs_stream.RS_STREAM_COLOR).orientation i j = sample_calib.Rt j i) ∧
      (∀ i : Fin 3,
        (info.stream_poses rs_stream.RS_STREAM_COLOR).position i
          = sample_calib.Tt i * (1/1000)) :=
  RetrieveCalibration_color_pose () sample_fetch none blank_info sample_calib rfl

/-- C6: the pose of the depth stream in the descriptor built by
`RetrieveCalibration` is the identity rotation and the zero translation,
whatever the coefficients. -/
theorem RetrieveCalibration_depth_pose {ε HW : Type} (new_hardware_io : HW)
    (GetParameters : HW → Except ε CameraCalibrationParameters)
    (hardware_io : Option HW) (c0 : CalibrationInfo) (calib : CameraCalibrationParameters)
    (hfetch : GetParameters (hardware_io.getD new_hardware_io) = Except.ok calib) :
    ∃ info : CalibrationInfo,
      (RetrieveCalibration new_hardware_io GetParameters hardware_io c0).2 = Except.ok info ∧
      (∀ i j : Fin 3,
        (info.stream_poses rs_stream.RS_STREAM_DEPTH).orientation i j = if i = j then 1 else 0) ∧
      (∀ i : Fin 3, (info.stream_poses rs_stream.RS_STREAM_DEPTH).position i = 0) := by
  refine ⟨_, RetrieveCalibration_ok new_hardware_io GetParameters hardware_io c0 calib hfetch,
    ?_, ?_⟩
  · intro i j
    fin_cases i <;> fin_cases j <;> rfl
  · intro i
    fin_cases i <;> simp

/-- The depth pose of C6 for the sample coefficients. -/
theorem RetrieveCalibration_depth_pose_witness :
    ∃ info : CalibrationInfo,
      (RetrieveCalibration () sample_fetch none blank_info).2 = Except.ok info ∧
      (∀ i j : Fin 3,
        (info.stream_poses rs_stream.RS_STREAM_DEPTH).orientation i j = if i = j then 1 else 0) ∧
      (∀ i : Fin 3, (info.stream_poses rs_stream.RS_STREAM_DEPTH).position i = 0) :=
  RetrieveCalibration_depth_pose () sample_fetch none blank_info sample_calib rfl

/-- C7: the distortion model of `MakeDepthIntrinsics` is inverse-Brown-Conrady;
the distortion model of `MakeColorIntrinsics` is none and its five distortion
coefficients are zero, at every input. -/
theorem distortion_model_spec (c : CameraCalibrationParameters) (w h : Int) :
    (MakeDepthIntrinsics c w h).distortion_model
      = rs_distortion.RS_DISTORTION_INVERSE_BROWN_CONRADY ∧
    (MakeColorIntrinsics c w h).distortion_model = rs_distortion.RS_DISTORTION_NONE ∧
    ∀ i : Fin 5, (MakeColorIntrinsics c w h).distortion_coeff i = 0 := by
  refine ⟨?_, ?_, ?_⟩
  · simp [MakeDepthIntrinsics]
  · simp [MakeColorIntrinsics]
  · intro i
    by_cases htest : int_mul w 3 = int_mul h 4 <;>
      simp [MakeColorIntrinsics, htest, rs_intrinsics.aggregate]

/-- C8: `xu_read` returns false exactly when the get-current request returns a
negative status, `xu_write` returns false exactly when the set request returns
a negative status, and a status of zero or more is reported as success. -/
theorem xu_status_contract {σ : Type} (T : libuvc σ) (device : σ) (xu_ctrl length : Nat)
    (buffer : Fin length → uint8_t) :
    ((xu_read T device xu_ctrl length buffer).result = false ↔
      (T.uvc_get_ctrl device (T.uvc_get_extension_units device).bUnitID xu_ctrl length buffer
        uvc_req_code.UVC_GET_CUR).1 < 0) ∧
    ((xu_read T device xu_ctrl length buffer).result = true ↔
      0 ≤ (T.uvc_get_ctrl device (T.uvc_get_extension_units device).bUnitID xu_ctrl length buffer
        uvc_req_code.UVC_GET_CUR).1) ∧
    ((xu_write T device xu_ctrl length buffer).result = false ↔
      (T.uvc_set_ctrl device (T.uvc_get_extension_units device).bUnitID xu_ctrl length
        buffer).1 < 0) ∧
    ((xu_write T device xu_ctrl length buffer).result = true ↔
      0 ≤ (T.uvc_set_ctrl device (T.uvc_get_extension_units device).bUnitID xu_ctrl length
        buffer).1) := by
  refine ⟨?_, ?_, ?_, ?_⟩
  · by_cases hneg : (T.uvc_get_ctrl device (T.uvc_get_extension_units device).bUnitID xu_ctrl
        length buffer uvc_req_code.UVC_GET_CUR).1 < 0
    · simp [xu_read_of_neg T device xu_ctrl length buffer hneg, hneg]
    · simp [xu_read_of_nonneg T device xu_ctrl length buffer (not_lt.mp hneg), hneg]
  · by_cases hneg : (T.uvc_get_ctrl device (T.uvc_get_extension_units device).bUnitID xu_ctrl
        length buffer uvc_req_code.UVC_GET_CUR).1 < 0
    · simp [xu_read_of_neg T device xu_ctrl length buffer hneg, hneg]
    · simp [xu_read_of_nonneg T device xu_ctrl length buffer (not_lt.mp hneg), not_lt.mp hneg]
  · by_cases hneg : (T.uvc_set_ctrl device (T.uvc_get_extension_units device).bUnitID xu_ctrl
        length buffer).1 < 0
    · simp [xu_write_of_neg T device xu_ctrl length buffer hneg, hneg]
    · simp [xu_write_of_nonneg T device xu_ctrl length buffer (not_lt.mp hneg), hneg]
  · by_cases hneg : (T.uvc_set_ctrl device (T.uvc_get_extension_units device).bUnitID xu_ctrl
        length buffer).1 < 0
    · simp [xu_write_of_neg T device xu_ctrl length buffer hneg, hneg]
    · simp [xu_write_of_nonneg T device xu_ctrl length buffer (not_lt.mp hneg), not_lt.mp hneg]

/-- C9: on a device that echoes the last-written value, `set_laser_power(v)`
followed by `get_laser_power` succeeds twice and reads back `v`. -/
theorem laser_power_round_trip {σ : Type} (T : libuvc σ) (hecho : echoes T)
    (k : ivcam_controls) (device : σ) (v laser_power : uint8_t) :
    (set_laser_power T k device v).result = true ∧
    (get_laser_power T k (set_laser_power T k device v).device laser_power).result = true ∧
    (get_laser_power T k (set_laser_power T k device v).device laser_power).buffer 0 = v := by
  obtain ⟨hset, hunit, hget, hval⟩ :=
    hecho device (T.uvc_get_extension_units device).bUnitID k.IVCAM_DEPTH_LASER_POWER 1
      (byte_buffer v) (byte_buffer laser_power)
  have hwrite := xu_write_of_nonneg T device k.IVCAM_DEPTH_LASER_POWER 1 (byte_buffer v) hset
  have hdev : (set_laser_power T k device v).device
      = (T.uvc_set_ctrl device (T.uvc_get_extension_units device).bUnitID
          k.IVCAM_DEPTH_LASER_POWER 1 (byte_buffer v)).2 := by
    unfold set_laser_power
    rw [hwrite]
  rw [← hdev] at hunit hget hval
  rw [← hunit] at hget hval
  have hread := xu_read_of_nonneg T (set_laser_power T k device v).device
    k.IVCAM_DEPTH_LASER_POWER 1 (byte_buffer laser_power) hget
  refine ⟨?_, ?_, ?_⟩
  · unfold set_laser_power
    rw [hwrite]
  · unfold get_laser_power
    rw [hread]
  · unfold get_laser_power
    rw [hread]
    simp only [hval]
    rfl

/-- The echo property of the simulated register-file device. -/
theorem echo_device_echoes : echoes echo_device := by
  intro s unit ctrl length written scratch
  refine ⟨le_refl _, rfl, le_refl _, ?_⟩
  funext i
  simp [echo_device]

/-- The round trip of C9 on the simulated register-file device, for the byte
200 written over a zeroed device and read into a variable holding 7. -/
theorem laser_power_round_trip_witness :
    echoes echo_device ∧
    (set_laser_power echo_device sample_controls (fun _ _ _ => 0) 200).result = true ∧
    (get_laser_power echo_device sample_controls
      (set_laser_power echo_device sample_controls (fun _ _ _ => 0) 200).device 7).result
        = true ∧
    (get_laser_power echo_device sample_controls
      (set_laser_power echo_device sample_controls (fun _ _ _ => 0) 200).device 7).buffer 0
        = 200 :=
  ⟨echo_device_echoes,
   laser_power_round_trip echo_device echo_device_echoes sample_controls (fun _ _ _ => 0) 200 7⟩

/-- C10, as stated, fails: on a device whose get request overwrites the buffer
and then returns -1, `xu_read` and `get_laser_power` report failure, and the
caller's byte, 0 before the call, is 255 after it. -/
theorem xu_read_buffer_counterexample :
    (clobbering_device.uvc_get_ctrl ()
      (clobbering_device.uvc_get_extension_units ()).bUnitID 1 1 (byte_buffer 0)
      uvc_req_code.UVC_GET_CUR).1 < 0 ∧
    (xu_read clobbering_device () 1 1 (byte_buffer 0)).result = false ∧
    (xu_read clobbering_device () 1 1 (byte_buffer 0)).buffer 0 = 255 ∧
    (get_laser_power clobbering_device sample_controls () 0).result = false ∧
    (get_laser_power clobbering_device sample_controls () 0).buffer 0 = 255 ∧
    ¬ ((xu_read clobbering_device () 1 1 (byte_buffer 0)).buffer = byte_buffer 0) := by
  refine ⟨by decide, by decide, by decide, by decide, by decide, ?_⟩
  intro hsame
  have h0 := congrFun hsame 0
  revert h0
  decide

/-- C10 (amended): when the get-current request returns a negative status,
`xu_read` yields a failure result and the buffer holds exactly the bytes the
transport left in it (so it is unchanged whenever the transport did not write
before failing); each `get_*` wrapper is `xu_read` on its own control with a
one-byte buffer. -/
theorem xu_read_failure {σ : Type} (T : libuvc σ) (device : σ) (xu_ctrl length : Nat)
    (buffer : Fin length → uint8_t) (k : ivcam_controls) (x : uint8_t)
    (hneg : (T.uvc_get_ctrl device (T.uvc_get_extension_units device).bUnitID xu_ctrl length
      buffer uvc_req_code.UVC_GET_CUR).1 < 0) :
    (xu_read T device xu_ctrl length buffer).result = false ∧
    (xu_read T device xu_ctrl length buffer).buffer
      = (T.uvc_get_ctrl device (T.uvc_get_extension_units device).bUnitID xu_ctrl length buffer
          uvc_req_code.UVC_GET_CUR).2.1 ∧
    ((T.uvc_get_ctrl device (T.uvc_get_extension_units device).bUnitID xu_ctrl length buffer
          uvc_req_code.UVC_GET_CUR).2.1 = buffer →
      (xu_read T device xu_ctrl length buffer).buffer = buffer) ∧
    get_laser_power T k device x
      = xu_read T device k.IVCAM_DEPTH_LASER_POWER 1 (byte_buffer x) ∧
    get_accuracy T k device x
      = xu_read T device k.IVCAM_DEPTH_ACCURACY 1 (byte_buffer x) ∧
    get_motion_range T k device x
      = xu_read T device k.IVCAM_DEPTH_MOTION_RANGE 1 (byte_buffer x) ∧
    get_filter_option T k device x
      = xu_read T device k.IVCAM_DEPTH_FILTER_OPTION 1 (byte_buffer x) ∧
    get_confidence_threshhold T k device x
      = xu_read T device k.IVCAM_DEPTH_CONFIDENCE_THRESH 1 (byte_buffer x) ∧
    get_dynamic_fps T k device x
      = xu_read T device k.IVCAM_DEPTH_DYNAMIC_FPS 1 (byte_buffer x) := by
  have hread := xu_read_of_neg T device xu_ctrl length buffer hneg
  refine ⟨?_, ?_, ?_, rfl, rfl, rfl, rfl, rfl, rfl⟩
  · rw [hread]
  · rw [hread]
  · intro hkept
    rw [hread]
    exact hkept

/-- The failure of C10 on a device that fails without writing: the read of
control 1 reports failure and the caller's byte 42 is still 42. -/
theorem xu_read_failure_witness :
    (xu_read failing_device () 1 1 (byte_buffer 42)).result = false ∧
    (xu_read failing_device () 1 1 (byte_buffer 42)).buffer = byte_buffer 42 :=
  have h := xu_read_failure failing_device () 1 1 (byte_buffer 42) sample_controls 0
    (by decide)
  ⟨h.1, h.2.2.1 rfl⟩

/-- C11, as stated, fails: for coefficients with the negative vertical focal
term `Kt[1][1] = -2`, the vertical focal length is -480 at 640x480 and -1080 at
1920x1080, so the value at the larger size is the smaller one. -/
theorem MakeColorIntrinsics_monotone_counterexample :
    (MakeColorIntrinsics flipped_calib 640 480).focal_length 1 = -480 ∧
    (MakeColorIntrinsics flipped_calib 1920 1080).focal_length 1 = -1080 ∧
    ¬ ((MakeColorIntrinsics flipped_calib 640 480).focal_length 1
        ≤ (MakeColorIntrinsics flipped_calib 1920 1080).focal_length 1) := by
  have h480 := (MakeColorIntrinsics_vertical flipped_calib 640 480).1
  have h1080 := (MakeColorIntrinsics_vertical flipped_calib 1920 1080).1
  have hk : flipped_calib.Kt 1 1 = -2 := rfl
  rw [hk] at h480 h1080
  rw [h480, h1080]
  norm_num

/-- C11 (amended): in exact arithmetic, each output of `MakeColorIntrinsics` at
1920x1080 is at least its value at 640x480 whenever the coefficient it scales
is not too negative: `Kt[0][0] ≥ 0` for the horizontal focal length,
`Kt[1][1] ≥ 0` for the vertical one, `Kt[0][2] ≥ -6/5` for the horizontal
principal point and `Kt[1][2] ≥ -1` for the vertical one. -/
theorem MakeColorIntrinsics_monotone (c : CameraCalibrationParameters) :
    (0 ≤ c.Kt 0 0 →
      (MakeColorIntrinsics c 640 480).focal_length 0
        ≤ (MakeColorIntrinsics c 1920 1080).focal_length 0) ∧
    (0 ≤ c.Kt 1 1 →
      (MakeColorIntrinsics c 640 480).focal_length 1
        ≤ (MakeColorIntrinsics c 1920 1080).focal_length 1) ∧
    (-6/5 ≤ c.Kt 0 2 →
      (MakeColorIntrinsics c 640 480).principal_point 0
        ≤ (MakeColorIntrinsics c 1920 1080).principal_point 0) ∧
    (-1 ≤ c.Kt 1 2 →
      (MakeColorIntrinsics c 640 480).principal_point 1
        ≤ (MakeColorIntrinsics c 1920 1080).principal_point 1) := by
  obtain ⟨hf0a, hp0a⟩ := MakeColorIntrinsics_of_test c 640 480 (by decide)
  obtain ⟨hf0b, hp0b⟩ := MakeColorIntrinsics_of_not_test c 1920 1080 (by decide)
  obtain ⟨hf1a, hp1a⟩ := MakeColorIntrinsics_vertical c 640 480
  obtain ⟨hf1b, hp1b⟩ := MakeColorIntrinsics_vertical c 1920 1080
  rw [hf0a, hp0a, hf0b, hp0b, hf1a, hp1a, hf1b, hp1b]
  push_cast
  refine ⟨?_, ?_, ?_, ?_⟩ <;> intro hge <;> linarith

/-- The ordering of C11 for the sample coefficients, whose four terms are
`9/8`, `2`, `1/16` and `-1/32`: all four outputs grow from 640x480 to
1920x1080. -/
theorem MakeColorIntrinsics_monotone_witness :
    (MakeColorIntrinsics sample_calib 640 480).focal_length 0
      ≤ (MakeColorIntrinsics sample_calib 1920 1080).focal_length 0 ∧
    (MakeColorIntrinsics sample_calib 640 480).focal_length 1
      ≤ (MakeColorIntrinsics sample_calib 1920 1080).focal_length 1 ∧
    (MakeColorIntrinsics sample_calib 640 480).principal_point 0
      ≤ (MakeColorIntrinsics sample_calib 1920 1080).principal_point 0 ∧
    (MakeColorIntrinsics sample_calib 640 480).principal_point 1
      ≤ (MakeColorIntrinsics sample_calib 1920 1080).principal_point 1 :=
  ⟨(MakeColorIntrinsics_monotone sample_calib).1 (by norm_num [sample_calib]),
   (MakeColorIntrinsics_monotone sample_calib).2.1 (by norm_num [sample_calib]),
   (MakeColorIntrinsics_monotone sample_calib).2.2.1 (by norm_num [sample_calib]),
   (MakeColorIntrinsics_monotone sample_calib).2.2.2 (by norm_num [sample_calib])⟩

/-- C13: the aspect-ratio correction leaves the vertical axis and the image
size alone: at every size the vertical focal length is `Kt[1][1]*0.5*h`, the
vertical principal point is `(Kt[1][2]*0.5 + 0.5)*h`, and the image size is
`(w, h)`. -/
theorem MakeColorIntrinsics_vertical_axis (c : CameraCalibrationParameters) (w h : Int) :
    (MakeColorIntrinsics c w h).focal_length 1 = c.Kt 1 1 * (1/2) * (h : ℚ) ∧
    (MakeColorIntrinsics c w h).principal_point 1 = (c.Kt 1 2 * (1/2) + 1/2) * (h : ℚ) ∧
    (MakeColorIntrinsics c w h).image_size 0 = w ∧
    (MakeColorIntrinsics c w h).image_size 1 = h :=
  ⟨(MakeColorIntrinsics_vertical c w h).1, (MakeColorIntrinsics_vertical c w h).2,
   (MakeColorIntrinsics_header c w h).1, (MakeColorIntrinsics_header c w h).2.1⟩

/-- C17: with `Kt[0][2] = 0` the horizontal principal point is `w/2` at every
size, on either side of the aspect-ratio branch. -/
theorem MakeColorIntrinsics_centre_fixed (c : CameraCalibrationParameters) (w h : Int)
    (hcentre : c.Kt 0 2 = 0) :
    (MakeColorIntrinsics c w h).principal_point 0 = (w : ℚ) / 2 := by
  by_cases htest : int_mul w 3 = int_mul h 4
  · rw [(MakeColorIntrinsics_of_test c w h htest).2, hcentre]
    ring
  · rw [(MakeColorIntrinsics_of_not_test c w h htest).2, hcentre]
    ring

/-- The centre of C17 at the 4:3 size 640x480 and at the 16:9 size 1920x1080,
for coefficients with `Kt[0][2] = 0`. -/
theorem MakeColorIntrinsics_centre_fixed_witness :
    (MakeColorIntrinsics centred_calib 640 480).principal_point 0 = ((640 : Int) : ℚ) / 2 ∧
    (MakeColorIntrinsics centred_calib 1920 1080).principal_point 0
      = ((1920 : Int) : ℚ) / 2 :=
  ⟨MakeColorIntrinsics_centre_fixed centred_calib 640 480 rfl,
   MakeColorIntrinsics_centre_fixed centred_calib 1920 1080 rfl⟩

/-- C18: for a 4:3 size `(w, h)` and a 16:9 size `(w2, h2)` of `int`
dimensions, the focal lengths of `MakeColorIntrinsics` satisfy
`fx(w,h) * fy(w2,h2) = fx(w2,h2) * fy(w,h)`. -/
theorem MakeColorIntrinsics_focal_ratio (c : CameraCalibrationParameters) (w h w2 h2 : Int)
    (hw2 : int_range w2) (h43 : w * 3 = h * 4) (h169 : w2 * 9 = h2 * 16) :
    (MakeColorIntrinsics c w h).focal_length 0 * (MakeColorIntrinsics c w2 h2).focal_length 1
      = (MakeColorIntrinsics c w2 h2).focal_length 0
          * (MakeColorIntrinsics c w h).focal_length 1 := by
  have htest : int_mul w 3 = int_mul h 4 := by unfold int_mul; rw [h43]
  have h43q : (w : ℚ) * 3 = (h : ℚ) * 4 := by exact_mod_cast h43
  have h169q : (w2 : ℚ) * 9 = (h2 : ℚ) * 16 := by exact_mod_cast h169
  rw [(MakeColorIntrinsics_of_test c w h htest).1, (MakeColorIntrinsics_vertical c w h).1,
    (MakeColorIntrinsics_vertical c w2 h2).1]
  by_cases htest2 : int_mul w2 3 = int_mul h2 4
  · obtain ⟨hw0, hh0⟩ := sixteen_ninths_test w2 h2 hw2 h169 htest2
    rw [(MakeColorIntrinsics_of_test c w2 h2 htest2).1, hw0, hh0]
    simp
  · rw [(MakeColorIntrinsics_of_not_test c w2 h2 htest2).1]
    have hh : (h : ℚ) = (w : ℚ) * 3 / 4 := by linarith
    have hh2 : (h2 : ℚ) = (w2 : ℚ) * 9 / 16 := by linarith
    rw [hh, hh2]
    ring

/-- The focal-length ratio of C18 for 640x480 against 1920x1080. -/
theorem MakeColorIntrinsics_focal_ratio_witness :
    (MakeColorIntrinsics sample_calib 640 480).focal_length 0
        * (MakeColorIntrinsics sample_calib 1920 1080).focal_length 1
      = (MakeColorIntrinsics sample_calib 1920 1080).focal_length 0
          * (MakeColorIntrinsics sample_calib 640 480).focal_length 1 :=
  MakeColorIntrinsics_focal_ratio sample_calib 640 480 1920 1080 (by decide) (by decide)
    (by decide)

/-- C12: for each of the six parameters and every byte `v`, on a transport
that logs its requests, `set_X(v)` adds exactly one set request to the log, on
the control identifier of `X`, of length 1, with payload `v`; `get_X` adds
exactly one get-current request on the same control identifier with length 1,
and the byte it returns is the byte the transport left in the buffer. -/
theorem wrappers_pass_through {σ : Type} (T : libuvc σ) (k : ivcam_controls) (device : σ)
    (log : List uvc_request) (v x : uint8_t) :
    ((set_laser_power (recording T) k (device, log) v).device
        = ((T.uvc_set_ctrl device (T.uvc_get_extension_units device).bUnitID
              k.IVCAM_DEPTH_LASER_POWER 1 (byte_buffer v)).2,
           log ++ [uvc_request.set_ctrl (T.uvc_get_extension_units device).bUnitID
              k.IVCAM_DEPTH_LASER_POWER 1 [v]]) ∧
      (get_laser_power (recording T) k (device, log) x).device
        = ((T.uvc_get_ctrl device (T.uvc_get_extension_units device).bUnitID
              k.IVCAM_DEPTH_LASER_POWER 1 (byte_buffer x) uvc_req_code.UVC_GET_CUR).2.2,
           log ++ [uvc_request.get_ctrl (T.uvc_get_extension_units device).bUnitID
              k.IVCAM_DEPTH_LASER_POWER 1 uvc_req_code.UVC_GET_CUR]) ∧
      (get_laser_power T k device x).buffer 0
        = (T.uvc_get_ctrl device (T.uvc_get_extension_units device).bUnitID
              k.IVCAM_DEPTH_LASER_POWER 1 (byte_buffer x) uvc_req_code.UVC_GET_CUR).2.1 0) ∧
    ((set_accuracy (recording T) k (device, log) v).device
        = ((T.uvc_set_ctrl device (T.uvc_get_extension_units device).bUnitID
              k.IVCAM_DEPTH_ACCURACY 1 (byte_buffer v)).2,
           log ++ [uvc_request.set_ctrl (T.uvc_get_extension_units device).bUnitID
              k.IVCAM_DEPTH_ACCURACY 1 [v]]) ∧
      (get_accuracy (recording T) k (device, log) x).device
        = ((T.uvc_get_ctrl device (T.uvc_get_extension_units device).bUnitID
              k.IVCAM_DEPTH_ACCURACY 1 (byte_buffer x) uvc_req_code.UVC_GET_CUR).2.2,
           log ++ [uvc_request.get_ctrl (T.uvc_get_extension_units device).bUnitID
              k.IVCAM_DEPTH_ACCURACY 1 uvc_req_code.UVC_GET_CUR]) ∧
      (get_accuracy T k device x).buffer 0
        = (T.uvc_get_ctrl device (T.uvc_get_extension_units device).bUnitID
              k.IVCAM_DEPTH_ACCURACY 1 (byte_buffer x) uvc_req_code.UVC_GET_CUR).2.1 0) ∧
    ((set_motion_range (recording T) k (device, log) v).device
        = ((T.uvc_set_ctrl device (T.uvc_get_extension_units device).bUnitID
              k.IVCAM_DEPTH_MOTION_RANGE 1 (byte_buffer v)).2,
           log ++ [uvc_request.set_ctrl (T.uvc_get_extension_units device).bUnitID
              k.IVCAM_DEPTH_MOTION_RANGE 1 [v]]) ∧
      (get_motion_range (recording T) k (device, log) x).device
        = ((T.uvc_get_ctrl device (T.uvc_get_extension_units device).bUnitID
              k.IVCAM_DEPTH_MOTION_RANGE 1 (byte_buffer x) uvc_req_code.UVC_GET_CUR).2.2,
           log ++ [uvc_request.get_ctrl (T.uvc_get_extension_units device).bUnitID
              k.IVCAM_DEPTH_MOTION_RANGE 1 uvc_req_code.UVC_GET_CUR]) ∧
      (get_motion_range T k device x).buffer 0
        = (T.uvc_get_ctrl device (T.uvc_get_extension_units device).bUnitID
              k.IVCAM_DEPTH_MOTION_RANGE 1 (byte_buffer x) uvc_req_code.UVC_GET_CUR).2.1 0) ∧
    ((set_filter_option (recording T) k (device, log) v).device
        = ((T.uvc_set_ctrl device (T.uvc_get_extension_units device).bUnitID
              k.IVCAM_DEPTH_FILTER_OPTION 1 (byte_buffer v)).2,
           log ++ [uvc_request.set_ctrl (T.uvc_get_extension_units device).bUnitID
              k.IVCAM_DEPTH_FILTER_OPTION 1 [v]]) ∧
      (get_filter_option (recording T) k (device, log) x).device
        = ((T.uvc_get_ctrl device (T.uvc_get_extension_units device).bUnitID
              k.IVCAM_DEPTH_FILTER_OPTION 1 (byte_buffer x) uvc_req_code.UVC_GET_CUR).2.2,
           log ++ [uvc_request.get_ctrl (T.uvc_get_extension_units device).bUnitID
              k.IVCAM_DEPTH_FILTER_OPTION 1 uvc_req_code.UVC_GET_CUR]) ∧
      (get_filter_option T k device x).buffer 0
        = (T.uvc_get_ctrl device (T.uvc_get_extension_units device).bUnitID
              k.IVCAM_DEPTH_FILTER_OPTION 1 (byte_buffer x) uvc_req_code.UVC_GET_CUR).2.1 0) ∧
    ((set_confidence_threshhold (recording T) k (device, log) v).device
        = ((T.uvc_set_ctrl device (T.uvc_get_extension_units device).bUnitID
              k.IVCAM_DEPTH_CONFIDENCE_THRESH 1 (byte_buffer v)).2,
           log ++ [uvc_request.set_ctrl (T.uvc_get_extension_units device).bUnitID
              k.IVCAM_DEPTH_CONFIDENCE_THRESH 1 [v]]) ∧
      (get_confidence_threshhold (recording T) k (device, log) x).device
        = ((T.uvc_get_ctrl device (T.uvc_get_extension_units device).bUnitID
              k.IVCAM_DEPTH_CONFIDENCE_THRESH 1 (byte_buffer x) uvc_req_code.UVC_GET_CUR).2.2,
           log ++ [uvc_request.get_ctrl (T.uvc_get_extension_units device).bUnitID
              k.IVCAM_DEPTH_CONFIDENCE_THRESH 1 uvc_req_code.UVC_GET_CUR]) ∧
      (get_confidence_threshhold T k device x).buffer 0
        = (T.uvc_get_ctrl device (T.uvc_get_extension_units device).bUnitID
              k.IVCAM_DEPTH_CONFIDENCE_THRESH 1 (byte_buffer x) uvc_req_code.UVC_GET_CUR).2.1 0) ∧
    ((set_dynamic_fps (recording T) k (device, log) v).device
        = ((T.uvc_set_ctrl device (T.uvc_get_extension_units device).bUnitID
              k.IVCAM_DEPTH_DYNAMIC_FPS 1 (byte_buffer v)).2,
           log ++ [uvc_request.set_ctrl (T.uvc_get_extension_units device).bUnitID
              k.IVCAM_DEPTH_DYNAMIC_FPS 1 [v]]) ∧
      (get_dynamic_fps (recording T) k (device, log) x).device
        = ((T.uvc_get_ctrl device (T.uvc_get_extension_units device).bUnitID
              k.IVCAM_DEPTH_DYNAMIC_FPS 1 (byte_buffer x) uvc_req_code.UVC_GET_CUR).2.2,
           log ++ [uvc_request.get_ctrl (T.uvc_get_extension_units device).bUnitID
              k.IVCAM_DEPTH_DYNAMIC_FPS 1 uvc_req_code.UVC_GET_CUR]) ∧
      (get_dynamic_fps T k device x).buffer 0
        = (T.uvc_get_ctrl device (T.uvc_get_extension_units device).bUnitID
              k.IVCAM_DEPTH_DYNAMIC_FPS 1 (byte_buffer x) uvc_req_code.UVC_GET_CUR).2.1 0) := by
  refine ⟨?_, ?_, ?_, ?_, ?_, ?_⟩
  · exact ⟨xu_write_recorded T device log k.IVCAM_DEPTH_LASER_POWER v,
      xu_read_recorded T device log k.IVCAM_DEPTH_LASER_POWER x,
      congrFun (xu_read_buffer T device k.IVCAM_DEPTH_LASER_POWER 1 (byte_buffer x)) 0⟩
  · exact ⟨xu_write_recorded T device log k.IVCAM_DEPTH_ACCURACY v,
      xu_read_recorded T device log k.IVCAM_DEPTH_ACCURACY x,
      congrFun (xu_read_buffer T device k.IVCAM_DEPTH_ACCURACY 1 (byte_buffer x)) 0⟩
  · exact ⟨xu_write_recorded T device log k.IVCAM_DEPTH_MOTION_RANGE v,
      xu_read_recorded T device log k.IVCAM_DEPTH_MOTION_RANGE x,
      congrFun (xu_read_buffer T device k.IVCAM_DEPTH_MOTION_RANGE 1 (byte_buffer x)) 0⟩
  · exact ⟨xu_write_recorded T device log k.IVCAM_DEPTH_FILTER_OPTION v,
      xu_read_recorded T device log k.IVCAM_DEPTH_FILTER_OPTION x,
      congrFun (xu_read_buffer T device k.IVCAM_DEPTH_FILTER_OPTION 1 (byte_buffer x)) 0⟩
  · exact ⟨xu_write_recorded T device log k.IVCAM_DEPTH_CONFIDENCE_THRESH v,
      xu_read_recorded T device log k.IVCAM_DEPTH_CONFIDENCE_THRESH x,
      congrFun (xu_read_buffer T device k.IVCAM_DEPTH_CONFIDENCE_THRESH 1 (byte_buffer x)) 0⟩
  · exact ⟨xu_write_recorded T device log k.IVCAM_DEPTH_DYNAMIC_FPS v,
      xu_read_recorded T device log k.IVCAM_DEPTH_DYNAMIC_FPS x,
      congrFun (xu_read_buffer T device k.IVCAM_DEPTH_DYNAMIC_FPS 1 (byte_buffer x)) 0⟩

/-- C14: the descriptor built by `RetrieveCalibration` holds exactly
`NUM_INTRINSICS = 3` intrinsics, one per resolution tag: the color intrinsics at
640x480 under `COLOR_480P`, the color intrinsics at 1920x1080 under
`COLOR_1080P`, the depth intrinsics at 640x480 under `DEPTH_480P`. -/
theorem RetrieveCalibration_intrinsics_table {ε HW : Type} (new_hardware_io : HW)
    (GetParameters : HW → Except ε CameraCalibrationParameters)
    (hardware_io : Option HW) (c0 : CalibrationInfo) (calib : CameraCalibrationParameters)
    (hfetch : GetParameters (hardware_io.getD new_hardware_io) = Except.ok calib) :
    ∃ info : CalibrationInfo,
      (RetrieveCalibration new_hardware_io GetParameters hardware_io c0).2 = Except.ok info ∧
      info.intrinsics.length = NUM_INTRINSICS ∧ NUM_INTRINSICS = 3 ∧
      info.intrinsics[COLOR_480P]? = some (MakeColorIntrinsics calib 640 480) ∧
      info.intrinsics[COLOR_1080P]? = some (MakeColorIntrinsics calib 1920 1080) ∧
      info.intrinsics[DEPTH_480P]? = some (MakeDepthIntrinsics calib 640 480) := by
  obtain ⟨info, hinfo, hlist⟩ :=
    RetrieveCalibration_intrinsics new_hardware_io GetParameters hardware_io c0 calib hfetch
  refine ⟨info, hinfo, ?_, rfl, ?_, ?_, ?_⟩ <;> rw [hlist] <;> rfl

/-- The table of C14 for the sample coefficients, starting from an empty
vector. -/
theorem RetrieveCalibration_intrinsics_table_witness :
    ∃ info : CalibrationInfo,
      (RetrieveCalibration () sample_fetch none blank_info).2 = Except.ok info ∧
      info.intrinsics.length = NUM_INTRINSICS ∧ NUM_INTRINSICS = 3 ∧
      info.intrinsics[COLOR_480P]? = some (MakeColorIntrinsics sample_calib 640 480) ∧
      info.intrinsics[COLOR_1080P]? = some (MakeColorIntrinsics sample_calib 1920 1080) ∧
      info.intrinsics[DEPTH_480P]? = some (MakeDepthIntrinsics sample_calib 640 480) :=
  RetrieveCalibration_intrinsics_table () sample_fetch none blank_info sample_calib rfl

/-- C15: `RetrieveCalibration` returns an error exactly when the fetch does, and
then it is the error of the fetch; it returns a descriptor exactly when the
fetch returns coefficients, so a failed fetch produces no descriptor. -/
theorem RetrieveCalibration_fails_iff {ε HW : Type} (new_hardware_io : HW)
    (GetParameters : HW → Except ε CameraCalibrationParameters)
    (hardware_io : Option HW) (c0 : CalibrationInfo) :
    (∀ e : ε,
      (RetrieveCalibration new_hardware_io GetParameters hardware_io c0).2 = Except.error e ↔
        GetParameters (hardware_io.getD new_hardware_io) = Except.error e) ∧
    ((∃ info : CalibrationInfo,
        (RetrieveCalibration new_hardware_io GetParameters hardware_io c0).2 = Except.ok info) ↔
      ∃ calib : CameraCalibrationParameters,
        GetParameters (hardware_io.getD new_hardware_io) = Except.ok calib) ∧
    (∀ e : ε, GetParameters (hardware_io.getD new_hardware_io) = Except.error e →
      ∀ info : CalibrationInfo,
        (RetrieveCalibration new_hardware_io GetParameters hardware_io c0).2
          ≠ Except.ok info) := by
  cases hfetch : GetParameters (hardware_io.getD new_hardware_io) with
  | error e0 =>
    have hres := RetrieveCalibration_error new_hardware_io GetParameters hardware_io c0 e0 hfetch
    rw [hres]
    refine ⟨?_, ?_, ?_⟩
    · intro e
      constructor <;> intro hsame <;> cases hsame <;> rfl
    · constructor
      · rintro ⟨info, hinfo⟩
        cases hinfo
      · rintro ⟨calib, hcalib⟩
        cases hcalib
    · intro e _ info hinfo
      cases hinfo
  | ok calib =>
    have hres := RetrieveCalibration_ok new_hardware_io GetParameters hardware_io c0 calib hfetch
    rw [hres]
    refine ⟨?_, ?_, ?_⟩
    · intro e
      constructor <;> intro hbad <;> cases hbad
    · constructor
      · intro _
        exact ⟨calib, rfl⟩
      · intro _
        exact ⟨_, rfl⟩
    · intro e hbad
      cases hbad

/-- C16: every stream mode of the capability table has an intrinsics index
below `NUM_INTRINSICS`, and the descriptor `RetrieveCalibration` stores at that
index has the width and height of the mode and its kind: no distortion model
for a color mode, inverse-Brown-Conrady for a depth mode. -/
theorem capability_table_consistent {ε HW : Type} (info0 : StaticCameraInfo)
    (hempty : info0.subdevice_modes = []) (new_hardware_io : HW)
    (GetParameters : HW → Except ε CameraCalibrationParameters)
    (hardware_io : Option HW) (c0 : CalibrationInfo) (calib : CameraCalibrationParameters)
    (hfetch : GetParameters (hardware_io.getD new_hardware_io) = Except.ok calib) :
    ∃ info : CalibrationInfo,
      (RetrieveCalibration new_hardware_io GetParameters hardware_io c0).2 = Except.ok info ∧
      ∀ sm ∈ (get_f200_info info0).subdevice_modes, ∀ m ∈ sm.streams,
        m.intrinsics_index < NUM_INTRINSICS ∧
        ∃ d : rs_intrinsics, info.intrinsics[m.intrinsics_index]? = some d ∧
          d.image_size 0 = m.width ∧ d.image_size 1 = m.height ∧
          (m.stream = rs_stream.RS_STREAM_COLOR →
            d.distortion_model = rs_distortion.RS_DISTORTION_NONE) ∧
          (m.stream = rs_stream.RS_STREAM_DEPTH →
            d.distortion_model = rs_distortion.RS_DISTORTION_INVERSE_BROWN_CONRADY) := by
  obtain ⟨info, hinfo, hlist⟩ :=
    RetrieveCalibration_intrinsics new_hardware_io GetParameters hardware_io c0 calib hfetch
  refine ⟨info, hinfo, ?_⟩
  rw [get_f200_info_modes info0 hempty, hlist]
  intro sm hsm m hm
  simp only [List.mem_cons, List.mem_singleton, List.not_mem_nil, or_false] at hsm
  rcases hsm with rfl | rfl | rfl
  · simp only [List.mem_singleton] at hm
    subst hm
    refine ⟨by decide, MakeColorIntrinsics calib 640 480, rfl, ?_, ?_, ?_, ?_⟩
    · exact (MakeColorIntrinsics_header calib 640 480).1
    · exact (MakeColorIntrinsics_header calib 640 480).2.1
    · intro _
      exact (MakeColorIntrinsics_header calib 640 480).2.2
    · intro hdepth
      cases hdepth
  · simp only [List.mem_singleton] at hm
    subst hm
    refine ⟨by decide, MakeColorIntrinsics calib 1920 1080, rfl, ?_, ?_, ?_, ?_⟩
    · exact (MakeColorIntrinsics_header calib 1920 1080).1
    · exact (MakeColorIntrinsics_header calib 1920 1080).2.1
    · intro _
      exact (MakeColorIntrinsics_header calib 1920 1080).2.2
    · intro hdepth
      cases hdepth
  · simp only [List.mem_singleton] at hm
    subst hm
    refine ⟨by decide, MakeDepthIntrinsics calib 640 480, rfl, ?_, ?_, ?_, ?_⟩
    · exact (MakeDepthIntrinsics_header calib 640 480).1
    · exact (MakeDepthIntrinsics_header calib 640 480).2.1
    · intro hcolor
      cases hcolor
    · intro _
      exact (MakeDepthIntrinsics_header calib 640 480).2.2

/-- The consistency of C16 for the table built from an empty vector and the
descriptor built from the sample coefficients. -/
theorem capability_table_consistent_witness :
    ∃ info : CalibrationInfo,
      (RetrieveCalibration () sample_fetch none blank_info).2 = Except.ok info ∧
      ∀ sm ∈ (get_f200_info blank_static_info).subdevice_modes, ∀ m ∈ sm.streams,
        m.intrinsics_index < NUM_INTRINSICS ∧
        ∃ d : rs_intrinsics, info.intrinsics[m.intrinsics_index]? = some d ∧
          d.image_size 0 = m.width ∧ d.image_size 1 = m.height ∧
          (m.stream = rs_stream.RS_STREAM_COLOR →
            d.distortion_model = rs_distortion.RS_DISTORTION_NONE) ∧
          (m.stream = rs_stream.RS_STREAM_DEPTH →
            d.distortion_model = rs_distortion.RS_DISTORTION_INVERSE_BROWN_CONRADY) :=
  capability_table_consistent blank_static_info rfl () sample_fetch none blank_info
    sample_calib rfl

end rsimpl.f200
